import Mathlib

/-!
Verification of the source-orchestration and compliance engine of the
Resume_parser repository (`src/backend/src/scrapers/legal_job_scraper.py`
and `src/backend/src/scrapers/advanced_job_scraper.py`), shallowly
embedded in Lean 4.

Network calls (robots.txt retrieval, API calls, HTML fetches) are
modelled as explicit oracle parameters; Python floats are modelled as
exact rationals (the float values arising here are small exact
fractions); the mutable scraper state (robots cache, proxy rotation
counter) is passed explicitly.  Python string primitives (`lower`,
`upper`, `title`, `split`, substring `in`) are re-implemented
structurally over the character list of a `String` so that every
definition evaluates inside the kernel.
-/

namespace ResumeParser

/-! ## Python string primitives -/

/-- Python `str.lower()` (ASCII case mapping, which covers every string
occurring in the scrapers). -/
def py_lower (s : String) : String := String.mk (s.data.map Char.toLower)

/-- Python `str.upper()`. -/
def py_upper (s : String) : String := String.mk (s.data.map Char.toUpper)

/-- Core of Python `str.split(sep)` for a one-character separator:
splitting an empty string yields `[""]`, and every separator occurrence
opens a new chunk. -/
def split_on_char (sep : Char) : List Char → List (List Char)
  | [] => [[]]
  | c :: cs =>
    let rest := split_on_char sep cs
    if c = sep then [] :: rest
    else
      match rest with
      | [] => [[c]]
      | chunk :: more => (c :: chunk) :: more

/-- Python `s.split(sep)` for a one-character separator. -/
def py_split (s : String) (sep : Char) : List String :=
  (split_on_char sep s.data).map (fun cs => String.mk cs)

/-- Does the first list occur as a prefix of the second? -/
def starts_with : List Char → List Char → Bool
  | [], _ => true
  | _ :: _, [] => false
  | a :: as, b :: bs => a = b && starts_with as bs

/-- Does `needle` occur as a contiguous sublist of `haystack`? -/
def has_substring (haystack needle : List Char) : Bool :=
  match haystack with
  | [] => needle.isEmpty
  | _ :: rest => starts_with needle haystack || has_substring rest needle

/-- Python `needle in haystack` on strings. -/
def py_in (needle haystack : String) : Bool :=
  has_substring haystack.data needle.data

/-- Index of the first occurrence of `needle` in `haystack` (Python
`str.find`, `none` for -1).  Used to express "order of first appearance
in the text". -/
def sub_index (haystack needle : List Char) : Option Nat :=
  match haystack with
  | [] => if needle.isEmpty then some 0 else none
  | _ :: rest =>
    if starts_with needle haystack then some 0
    else (sub_index rest needle).map (fun n => n + 1)

/-- First-occurrence index of `needle` in `haystack`, as strings. -/
def py_find (haystack needle : String) : Option Nat :=
  sub_index haystack.data needle.data

/-- One step of Python `str.title()`: an alphabetic character is
uppercased when the previous character was not alphabetic and lowercased
otherwise. -/
def title_chars : Bool → List Char → List Char
  | _, [] => []
  | prevAlpha, c :: cs =>
    let a := c.isAlpha
    let c2 := if a && !prevAlpha then c.toUpper else if a then c.toLower else c
    c2 :: title_chars a cs

/-- Python `str.title()`. -/
def py_title (s : String) : String := String.mk (title_chars false s.data)

/-! ## Canonical listing records

`JobListing` is the dataclass of `legal_job_scraper.py`; `AdvJob` models
the plain dicts produced by `advanced_job_scraper.py` through the fields
its deduplicator and reporting read: title, company, location, source. -/

structure JobListing where
  title : String
  company : String
  location : String
  salary : Option String
  description : String
  requirements : List String
  job_type : String
  experience_level : String
  posted_date : String
  application_url : String
  source : String
  job_id : String
deriving DecidableEq, Repr

structure AdvJob where
  title : String
  company : String
  location : String
  source : String
deriving DecidableEq, Repr

/-! ## Deduplicator, exact-key variant (`LegalJobScraper.remove_duplicates`) -/

/-- The composite identifier built in `remove_duplicates`:
`f"{job.title.lower()}_{job.company.lower()}_{job.location.lower()}"`. -/
def listing_key (job : JobListing) : String :=
  py_lower job.title ++ "_" ++ py_lower job.company ++ "_" ++ py_lower job.location

/-- Loop of `remove_duplicates`, with the `seen` set made explicit as the
list of recorded keys (membership in a Python set is order-independent,
so a list with `∈` is a faithful model). -/
def remove_duplicates_aux (seen : List String) : List JobListing → List JobListing
  | [] => []
  | job :: rest =>
    let identifier := listing_key job
    if identifier ∈ seen then
      remove_duplicates_aux seen rest
    else
      job :: remove_duplicates_aux (identifier :: seen) rest

/-- `LegalJobScraper.remove_duplicates`: keep the first listing for each
composite key. -/
def remove_duplicates (jobs : List JobListing) : List JobListing :=
  remove_duplicates_aux [] jobs

/-! ## Deduplicator, Jaccard variant
(`AdvancedJobScraper.remove_duplicates_advanced` / `similarity_score`) -/

/-- The composite identifier built in `remove_duplicates_advanced`. -/
def adv_key (job : AdvJob) : String :=
  py_lower job.title ++ "_" ++ py_lower job.company ++ "_" ++ py_lower job.location

/-- `len(set(str1.split('_')) & set(str2.split('_')))`. -/
def inter_count (str1 str2 : String) : Nat :=
  (((py_split str1 '_').dedup).filter (fun t => t ∈ (py_split str2 '_').dedup)).length

/-- `len(set(str1.split('_')) | set(str2.split('_')))`. -/
def union_count (str1 str2 : String) : Nat :=
  ((py_split str1 '_').dedup ++
    ((py_split str2 '_').dedup).filter (fun t => t ∉ (py_split str1 '_').dedup)).length

/-- `AdvancedJobScraper.similarity_score`: token-set Jaccard similarity
over the chunks of `str.split('_')` (exact rational arithmetic in place
of Python float division; every quotient arising here is an exact small
fraction). -/
def similarity_score (str1 str2 : String) : ℚ :=
  if union_count str1 str2 > 0 then
    (inter_count str1 str2 : ℚ) / (union_count str1 str2 : ℚ)
  else 0

/-- The `for seen_id in seen: ... break` loop of
`remove_duplicates_advanced`: is the new identifier similar (strictly
above 0.85) to some already accepted key? -/
def is_duplicate_of (identifier : String) : List String → Bool
  | [] => false
  | seen_id :: rest =>
    if similarity_score identifier seen_id > (0.85 : ℚ) then true
    else is_duplicate_of identifier rest

/-- Loop of `remove_duplicates_advanced` with the `seen` set explicit. -/
def remove_duplicates_advanced_aux (seen : List String) : List AdvJob → List AdvJob
  | [] => []
  | job :: rest =>
    let identifier := adv_key job
    if is_duplicate_of identifier seen then
      remove_duplicates_advanced_aux seen rest
    else
      job :: remove_duplicates_advanced_aux (identifier :: seen) rest

/-- `AdvancedJobScraper.remove_duplicates_advanced`. -/
def remove_duplicates_advanced (jobs : List AdvJob) : List AdvJob :=
  remove_duplicates_advanced_aux [] jobs

/-! ## ComplianceGate (`LegalJobScraper.check_robots_txt`)

`RobotsFile` models a parsed `urllib.robotparser.RobotFileParser`; the
network read `rp.read()` is an oracle `read_robots : String → Option
RobotsFile`, `none` meaning the read raised (network error or malformed
body).  The robots cache `self.robots_cache` is an association list from
base url to parsed file, and the third component of the result counts
the robots.txt retrievals performed by the call (0 or 1). -/

structure RobotsFile where
  can_fetch : String → String → Bool

/-- `urllib.parse.urljoin` restricted to the shapes used by the scraper
(absolute base url without trailing slash, root-relative endpoint). -/
def urljoin (base endpoint : String) : String := base ++ endpoint

/-- `LegalJobScraper.check_robots_txt`.  Returns the allow decision, the
updated robots cache and the number of robots.txt retrievals made. -/
def check_robots_txt (respect_robots : Bool)
    (read_robots : String → Option RobotsFile)
    (robots_cache : List (String × RobotsFile))
    (base_url endpoint : String) :
    Bool × List (String × RobotsFile) × Nat :=
  if !respect_robots then (true, robots_cache, 0)
  else
    match robots_cache.lookup base_url with
    | some rp => (rp.can_fetch "*" (urljoin base_url endpoint), robots_cache, 0)
    | none =>
      match read_robots base_url with
      | some rp =>
          (rp.can_fetch "*" (urljoin base_url endpoint),
           (base_url, rp) :: robots_cache, 1)
      | none => (true, robots_cache, 1)

/-! ## Source registry and orchestrator
(`LegalJobScraper.job_sources` / `scrape_jobs_comprehensive`)

A source configuration is one entry of the `job_sources` dict (dicts
iterate in insertion order, so the registry is an ordered list).  The
network-performing scrape calls `scrape_via_api` and `scrape_via_web`
are oracles `api, web : String → Outcome` giving, per source name, the
jobs they return or the exception they raise; the environment is an
oracle `getenv : String → Option String`. -/

structure SourceConfig where
  name : String
  base_url : String
  search_endpoint : String
  api_available : Bool
  requires_api_key : Bool
  rate_limit : Option ℚ
  legal_status : String
deriving Repr

/-- Result of one network-performing scrape call: the listings it
returned, or the exception it raised. -/
inductive Outcome where
  | ok (jobs : List JobListing)
  | error
deriving DecidableEq, Repr

/-- What one iteration of the source loop in
`scrape_jobs_comprehensive` contributed: a job list extended into
`all_jobs`, a skip (`continue` without touching `all_jobs`), or an
exception caught by the per-source `except` clause. -/
inductive SourceResult where
  | jobs (l : List JobListing)
  | skipped
  | errored
deriving DecidableEq, Repr

/-- Python truthiness of `os.getenv(...)`: `None` and the empty string
are falsy. -/
def truthy : Option String → Bool
  | none => false
  | some s => !s.isEmpty

/-- `f"{source.upper()}_API_KEY"`. -/
def api_key_env_var (source : String) : String :=
  py_upper source ++ "_API_KEY"

/-- `LegalJobScraper.scrape_via_api_with_fallback`: use the API when the
`<SOURCE>_API_KEY` environment variable is set (and truthy), otherwise
fall back to web scraping. -/
def scrape_via_api_with_fallback (getenv : String → Option String)
    (api web : String → Outcome) (source : String) : Outcome :=
  if truthy (getenv (api_key_env_var source)) then api source
  else web source

/-- The body of the per-source loop of `scrape_jobs_comprehensive`:
dispatch on `legal_status`, with the surrounding `try/except` catching
any exception and the `API_ONLY` and unknown-status branches executing
`continue`. -/
def process_source (getenv : String → Option String)
    (api web : String → Outcome) (src : SourceConfig) : SourceResult :=
  if src.legal_status = "API_AVAILABLE" then
    match api src.name with
    | Outcome.ok jobs => SourceResult.jobs jobs
    | Outcome.error => SourceResult.errored
  else if src.legal_status = "API_PREFERRED" then
    match scrape_via_api_with_fallback getenv api web src.name with
    | Outcome.ok jobs => SourceResult.jobs jobs
    | Outcome.error => SourceResult.errored
  else if src.legal_status = "SCRAPING_ALLOWED" then
    match web src.name with
    | Outcome.ok jobs => SourceResult.jobs jobs
    | Outcome.error => SourceResult.errored
  else
    SourceResult.skipped

/-- Accumulation of `all_jobs` across the loop: only `jobs` results
extend the list. -/
def collect_jobs : List SourceResult → List JobListing
  | [] => []
  | SourceResult.jobs l :: rest => l ++ collect_jobs rest
  | _ :: rest => collect_jobs rest

/-- `LegalJobScraper.scrape_jobs_comprehensive`: process every source in
registry order, concatenate the contributed jobs, and deduplicate. -/
def scrape_jobs_comprehensive (getenv : String → Option String)
    (api web : String → Outcome) (sources : List SourceConfig) :
    List JobListing :=
  remove_duplicates (collect_jobs (sources.map (process_source getenv api web)))

/-! ## RateScheduler (`LegalJobScraper.respectful_delay`)

`random.uniform(min_delay, max_delay)` is modelled by its draw
`min_delay + u * (max_delay - min_delay)` for a uniform `u ∈ [0, 1]`. -/

/-- `self.job_sources.get(source, {}).get('rate_limit', self.config.delay_min)`. -/
def effective_min_delay (delay_min : ℚ) (sources : List SourceConfig)
    (source : String) : ℚ :=
  match sources.find? (fun c => c.name == source) with
  | some cfg => cfg.rate_limit.getD delay_min
  | none => delay_min

/-- `LegalJobScraper.respectful_delay`: the wait it sleeps, given the
uniform draw `u ∈ [0, 1]` of `random.uniform`. -/
def respectful_delay (delay_min : ℚ) (sources : List SourceConfig)
    (source : String) (u : ℚ) : ℚ :=
  let min_delay := effective_min_delay delay_min sources source
  let max_delay := min_delay + 1
  min_delay + u * (max_delay - min_delay)

/-! ## IdentityRotator (`AdvancedJobScraper.get_next_proxy`)

A proxy pool entry is `some url` (the `{'http': url, 'https': url}`
dict) or `none` (the literal `None` placed in the pool when no proxies
are configured, meaning direct connection). -/

structure RotatorState where
  use_proxies : Bool
  proxies : List (Option String)
  current_proxy_index : Nat
  request_count : Nat
deriving DecidableEq, Repr

/-- `AdvancedJobScraper.get_next_proxy`: returns the proxy handed to the
request and the successor state. -/
def get_next_proxy (st : RotatorState) : Option String × RotatorState :=
  if !st.use_proxies || st.proxies.isEmpty then (none, st)
  else
    let idx :=
      if st.request_count % 5 = 0 then
        (st.current_proxy_index + 1) % st.proxies.length
      else st.current_proxy_index
    let st2 := { st with current_proxy_index := idx,
                         request_count := st.request_count + 1 }
    (st2.proxies.getD idx none, st2)

/-! ## Requirement-tag extraction
(`LegalJobScraper.extract_requirements`,
`AdvancedJobScraper.extract_skills_from_text`) -/

/-- The `tech_skills` vocabulary of `extract_requirements`. -/
def tech_skills : List String :=
  ["python", "javascript", "java", "react", "node.js", "angular", "vue",
   "typescript", "html", "css", "sql", "mongodb", "postgresql", "mysql",
   "aws", "azure", "docker", "kubernetes", "git", "rest api", "graphql",
   "machine learning", "ai", "data science", "tensorflow", "pytorch"]

/-- The `skills_database` vocabulary of `extract_skills_from_text`. -/
def skills_database : List String :=
  ["python", "javascript", "java", "react", "node.js", "angular", "vue.js",
   "typescript", "html", "css", "sql", "mongodb", "postgresql", "mysql",
   "aws", "azure", "gcp", "docker", "kubernetes", "git", "rest api", "graphql",
   "machine learning", "ai", "data science", "tensorflow", "pytorch", "pandas",
   "spring boot", "django", "flask", "express.js", "laravel", "symfony",
   "redis", "elasticsearch", "jenkins", "ci/cd", "agile", "scrum"]

/-- `LegalJobScraper.extract_requirements`: iterate the vocabulary in
its own order, keep the skills occurring as substrings of the lowered
description, title-case them, and truncate to 10. -/
def extract_requirements (description : String) : List String :=
  let description_lower := py_lower description
  (((tech_skills.filter (fun skill => py_in skill description_lower)).map
      py_title).take 10)

/-- `AdvancedJobScraper.extract_skills_from_text`: same loop over
`skills_database`, truncated to 15. -/
def extract_skills_from_text (text : String) : List String :=
  let text_lower := py_lower text
  (((skills_database.filter (fun skill => py_in skill text_lower)).map
      py_title).take 15)

/-- Mapping of an `Outcome` to what the loop body records for it:
returned jobs are extended into `all_jobs`, a raised exception is caught
by the `except` clause. -/
def outcome_result : Outcome → SourceResult
  | Outcome.ok l => SourceResult.jobs l
  | Outcome.error => SourceResult.errored

/-! ## Concrete sample data (used by witnesses and counterexamples) -/

/-- The `linkedin` entry of `job_sources` (`legal_status = 'API_ONLY'`). -/
def linkedin_cfg : SourceConfig :=
  ⟨"linkedin", "https://www.linkedin.com", "/jobs/search", true, true,
   some 1, "API_ONLY"⟩

/-- The `github_jobs` entry of `job_sources` (`legal_status = 'API_AVAILABLE'`). -/
def github_jobs_cfg : SourceConfig :=
  ⟨"github_jobs", "https://jobs.github.com", "/positions", true, false,
   some 1, "API_AVAILABLE"⟩

/-- The `monster` entry of `job_sources` (`legal_status = 'SCRAPING_ALLOWED'`). -/
def monster_cfg : SourceConfig :=
  ⟨"monster", "https://www.monster.com", "/jobs/search", false, false,
   some 3, "SCRAPING_ALLOWED"⟩

/-- The `indeed` entry of `job_sources` (`legal_status = 'API_PREFERRED'`,
`rate_limit = 2.0`). -/
def indeed_cfg : SourceConfig :=
  ⟨"indeed", "https://www.indeed.com", "/jobs", true, true,
   some 2, "API_PREFERRED"⟩

/-- A canonical listing as produced by an API adapter. -/
def sample_api_listing : JobListing :=
  ⟨"Remote Developer", "GitHub", "Remote", none, "python developer role",
   ["Python"], "full-time", "mid", "2024-01-01",
   "https://jobs.github.com/positions/1", "github_jobs", "1"⟩

/-- Environment with no API keys configured. -/
def no_env : String → Option String := fun _ => none

/-- Environment holding only a LinkedIn API credential. -/
def env_with_linkedin_key : String → Option String :=
  fun v => if v = "LINKEDIN_API_KEY" then some "secret-key" else none

/-- API oracle returning one listing for every source. -/
def api_stub : String → Outcome := fun _ => Outcome.ok [sample_api_listing]

/-- Web oracle returning no listings. -/
def web_stub : String → Outcome := fun _ => Outcome.ok []

/-- Web oracle raising an exception for every source. -/
def web_failing : String → Outcome := fun _ => Outcome.error

/-- The earlier-source listing of the spec's dedup-threshold example. -/
def senior_remote : AdvJob :=
  ⟨"Senior Python Developer", "Acme Corp", "Remote", "source_a"⟩

/-- The later-source listing of the spec's dedup-threshold example. -/
def senior_remote_usa : AdvJob :=
  ⟨"Senior Python Developer", "Acme Corp", "Remote USA", "source_b"⟩

/-- Robots oracle whose every retrieval fails (network error or
malformed body, i.e. `rp.read()` raises). -/
def robots_read_failure : String → Option RobotsFile := fun _ => none

/-- A two-entry proxy pool. -/
def two_proxy_pool : List (Option String) :=
  [some "http://proxy1.example.com:8080", some "http://proxy2.example.com:8080"]

/-- Rotator state with proxy use disabled (`use_proxies = False`). -/
def rotation_disabled_state : RotatorState := ⟨false, two_proxy_pool, 0, 0⟩

/-- Fresh rotator state with proxy use enabled. -/
def rotation_enabled_state : RotatorState := ⟨true, two_proxy_pool, 0, 0⟩

/-! ## Helper lemmas -/

theorem collect_jobs_append (a b : List SourceResult) :
    collect_jobs (a ++ b) = collect_jobs a ++ collect_jobs b := by
  induction a with
  | nil => rfl
  | cons r rest ih =>
    cases r with
    | jobs l => simp [collect_jobs, ih]
    | skipped => simp [collect_jobs, ih]
    | errored => simp [collect_jobs, ih]

/-- A source whose loop iteration contributes no jobs can be removed
from the registry without changing the run result. -/
theorem scrape_drop (getenv : String → Option String)
    (api web : String → Outcome) (pre : List SourceConfig)
    (src : SourceConfig) (post : List SourceConfig)
    (h : collect_jobs [process_source getenv api web src] = []) :
    scrape_jobs_comprehensive getenv api web (pre ++ src :: post) =
      scrape_jobs_comprehensive getenv api web (pre ++ post) := by
  unfold scrape_jobs_comprehensive
  have hsplit : (pre ++ src :: post).map (process_source getenv api web) =
      pre.map (process_source getenv api web) ++
        ([process_source getenv api web src] ++
          post.map (process_source getenv api web)) := by
    simp
  rw [hsplit, collect_jobs_append, collect_jobs_append, h, List.nil_append,
    List.map_append, collect_jobs_append]

theorem remove_duplicates_aux_idem (l : List JobListing) :
    ∀ seen, remove_duplicates_aux seen (remove_duplicates_aux seen l) =
      remove_duplicates_aux seen l := by
  induction l with
  | nil => intro seen; rfl
  | cons job rest ih =>
    intro seen
    simp only [remove_duplicates_aux]
    by_cases h : listing_key job ∈ seen
    · rw [if_pos h]
      exact ih seen
    · rw [if_neg h]
      simp only [remove_duplicates_aux]
      rw [if_neg h, ih (listing_key job :: seen)]

theorem remove_duplicates_advanced_aux_idem (l : List AdvJob) :
    ∀ seen, remove_duplicates_advanced_aux seen
        (remove_duplicates_advanced_aux seen l) =
      remove_duplicates_advanced_aux seen l := by
  induction l with
  | nil => intro seen; rfl
  | cons job rest ih =>
    intro seen
    simp only [remove_duplicates_advanced_aux]
    by_cases h : is_duplicate_of (adv_key job) seen = true
    · rw [if_pos h]
      exact ih seen
    · rw [if_neg h]
      simp only [remove_duplicates_advanced_aux]
      rw [if_neg h, ih (adv_key job :: seen)]

/-! ## Claims -/

/-- C3: the Deduplicator is idempotent: running duplicate removal on its
own output returns that output unchanged, both for the exact-key variant
(`remove_duplicates`) and for the Jaccard-similarity variant
(`remove_duplicates_advanced`). -/
theorem dedup_idempotent :
    (∀ jobs : List JobListing,
      remove_duplicates (remove_duplicates jobs) = remove_duplicates jobs) ∧
    (∀ jobs : List AdvJob,
      remove_duplicates_advanced (remove_duplicates_advanced jobs) =
        remove_duplicates_advanced jobs) :=
  ⟨fun jobs => remove_duplicates_aux_idem jobs [],
   fun jobs => remove_duplicates_advanced_aux_idem jobs []⟩

/-- C4: a source with policy `API_ONLY` and no API credential present is
skipped entirely: its loop iteration yields `skipped` (no jobs, no
caught error) and dropping it from the registry leaves the run result
unchanged. -/
theorem api_only_no_credential_skip
    (getenv : String → Option String) (api web : String → Outcome)
    (src : SourceConfig) (pre post : List SourceConfig)
    (hstatus : src.legal_status = "API_ONLY")
    (_hcred : getenv (api_key_env_var src.name) = none) :
    process_source getenv api web src = SourceResult.skipped ∧
    scrape_jobs_comprehensive getenv api web (pre ++ src :: post) =
      scrape_jobs_comprehensive getenv api web (pre ++ post) := by
  have hskip : process_source getenv api web src = SourceResult.skipped := by
    unfold process_source
    rw [hstatus]
    rfl
  exact ⟨hskip, scrape_drop getenv api web pre src post (by rw [hskip]; rfl)⟩

theorem api_only_no_credential_skip_witness :
    linkedin_cfg.legal_status = "API_ONLY" ∧
    no_env (api_key_env_var linkedin_cfg.name) = none ∧
    (process_source no_env api_stub web_stub linkedin_cfg =
        SourceResult.skipped ∧
      scrape_jobs_comprehensive no_env api_stub web_stub
          ([github_jobs_cfg] ++ linkedin_cfg :: [monster_cfg]) =
        scrape_jobs_comprehensive no_env api_stub web_stub
          ([github_jobs_cfg] ++ [monster_cfg])) :=
  ⟨rfl, rfl,
   api_only_no_credential_skip no_env api_stub web_stub linkedin_cfg
     [github_jobs_cfg] [monster_cfg] rfl rfl⟩

/-- C10: a source with policy `API_ONLY` is skipped unconditionally,
even when an API credential for it is present: the `API_ONLY` branch of
`scrape_jobs_comprehensive` executes `continue` without consulting the
environment. -/
theorem api_only_unconditional_skip
    (getenv : String → Option String) (api web : String → Outcome)
    (src : SourceConfig) (pre post : List SourceConfig)
    (hstatus : src.legal_status = "API_ONLY") :
    process_source getenv api web src = SourceResult.skipped ∧
    scrape_jobs_comprehensive getenv api web (pre ++ src :: post) =
      scrape_jobs_comprehensive getenv api web (pre ++ post) := by
  have hskip : process_source getenv api web src = SourceResult.skipped := by
    unfold process_source
    rw [hstatus]
    rfl
  exact ⟨hskip, scrape_drop getenv api web pre src post (by rw [hskip]; rfl)⟩

theorem api_only_unconditional_skip_witness :
    truthy (env_with_linkedin_key (api_key_env_var linkedin_cfg.name)) = true ∧
    (process_source env_with_linkedin_key api_stub web_stub linkedin_cfg =
        SourceResult.skipped ∧
      scrape_jobs_comprehensive env_with_linkedin_key api_stub web_stub
          ([github_jobs_cfg] ++ linkedin_cfg :: [monster_cfg]) =
        scrape_jobs_comprehensive env_with_linkedin_key api_stub web_stub
          ([github_jobs_cfg] ++ [monster_cfg])) :=
  ⟨rfl,
   api_only_unconditional_skip env_with_linkedin_key api_stub web_stub
     linkedin_cfg [github_jobs_cfg] [monster_cfg] rfl⟩

/-- C9: an error raised while processing one source is contained by the
per-source `except` clause: the run does not fail, the remaining sources
are still processed, and the result equals the merged result of the
sources that did not fail. -/
theorem source_error_contained
    (getenv : String → Option String) (api web : String → Outcome)
    (pre : List SourceConfig) (src : SourceConfig) (post : List SourceConfig)
    (herr : process_source getenv api web src = SourceResult.errored) :
    scrape_jobs_comprehensive getenv api web (pre ++ src :: post) =
      scrape_jobs_comprehensive getenv api web (pre ++ post) :=
  scrape_drop getenv api web pre src post (by rw [herr]; rfl)

/-! ### C1: dedup threshold -/

theorem sim_remote_usa_eq :
    similarity_score (adv_key senior_remote_usa) (adv_key senior_remote) =
      1/2 := by
  have h1 : inter_count (adv_key senior_remote_usa) (adv_key senior_remote) =
      2 := by decide
  have h2 : union_count (adv_key senior_remote_usa) (adv_key senior_remote) =
      4 := by decide
  unfold similarity_score
  rw [h1, h2]
  norm_num

theorem sim_remote_self_eq :
    similarity_score (adv_key senior_remote) (adv_key senior_remote) = 1 := by
  have h1 : inter_count (adv_key senior_remote) (adv_key senior_remote) =
      3 := by decide
  have h2 : union_count (adv_key senior_remote) (adv_key senior_remote) =
      3 := by decide
  unfold similarity_score
  rw [h1, h2]
  norm_num

/-- Running `remove_duplicates_advanced` on a two-element list keeps the
second listing exactly when its key is not similar to the first one. -/
theorem remove_dup_adv_pair (j1 j2 : AdvJob) :
    remove_duplicates_advanced [j1, j2] =
      if similarity_score (adv_key j2) (adv_key j1) > (0.85 : ℚ) then [j1]
      else [j1, j2] := by
  by_cases h : similarity_score (adv_key j2) (adv_key j1) > (0.85 : ℚ)
  · simp [remove_duplicates_advanced, remove_duplicates_advanced_aux,
      is_duplicate_of, h]
  · simp [remove_duplicates_advanced, remove_duplicates_advanced_aux,
      is_duplicate_of, h]

/-- C1, counterexample: the two listings whose composite keys are
`"senior python developer_acme corp_remote"` and
`"senior python developer_acme corp_remote usa"` are NOT collapsed by
`remove_duplicates_advanced`: splitting on `'_'` yields three tokens per
key, their Jaccard similarity is 1/2, which does not exceed 0.85, so
both listings are retained. -/
theorem dedup_threshold_cex :
    adv_key senior_remote = "senior python developer_acme corp_remote" ∧
    adv_key senior_remote_usa =
      "senior python developer_acme corp_remote usa" ∧
    similarity_score (adv_key senior_remote_usa) (adv_key senior_remote) =
      1/2 ∧
    ¬(similarity_score (adv_key senior_remote_usa) (adv_key senior_remote) >
      (0.85 : ℚ)) ∧
    remove_duplicates_advanced [senior_remote, senior_remote_usa] =
      [senior_remote, senior_remote_usa] ∧
    [senior_remote, senior_remote_usa] ≠ [senior_remote] := by
  have hsim := sim_remote_usa_eq
  have hle : ¬(similarity_score (adv_key senior_remote_usa)
      (adv_key senior_remote) > (0.85 : ℚ)) := by
    rw [hsim]; norm_num
  refine ⟨by decide, by decide, hsim, hle, ?_, by decide⟩
  rw [remove_dup_adv_pair, if_neg hle]

/-- C1, amended: two listings whose composite-key Jaccard similarity
(over `'_'`-separated tokens) exceeds 0.85 collapse to the earlier
listing; the spec's example pair, however, has similarity 1/2 (the keys
split into three multi-word tokens, not into words), so both of its
listings are retained. -/
theorem dedup_threshold_amended :
    (∀ j1 j2 : AdvJob,
      similarity_score (adv_key j2) (adv_key j1) > (0.85 : ℚ) →
      remove_duplicates_advanced [j1, j2] = [j1]) ∧
    remove_duplicates_advanced [senior_remote, senior_remote_usa] =
      [senior_remote, senior_remote_usa] := by
  constructor
  · intro j1 j2 h
    rw [remove_dup_adv_pair, if_pos h]
  · have hle : ¬(similarity_score (adv_key senior_remote_usa)
        (adv_key senior_remote) > (0.85 : ℚ)) := by
      rw [sim_remote_usa_eq]; norm_num
    rw [remove_dup_adv_pair, if_neg hle]

theorem dedup_threshold_amended_witness :
    remove_duplicates_advanced [senior_remote, senior_remote] =
      [senior_remote] :=
  dedup_threshold_amended.1 senior_remote senior_remote
    (by rw [sim_remote_self_eq]; norm_num)

/-! ### C2: compliance fail-open -/

/-- C2, counterexample: when the robots.txt retrieval fails,
`check_robots_txt` returns `true` (fail-open) but does NOT cache the
decision (the cache is returned unchanged), so a second call for the
same source performs a new robots.txt retrieval (retrieval count 1, not
0). -/
theorem robots_fail_open_not_cached_cex :
    check_robots_txt true robots_read_failure []
        "https://www.monster.com" "/jobs/search" = (true, [], 1) ∧
    (check_robots_txt true robots_read_failure
        (check_robots_txt true robots_read_failure []
          "https://www.monster.com" "/jobs/search").2.1
        "https://www.monster.com" "/jobs/search").2.2 = 1 ∧
    ¬((check_robots_txt true robots_read_failure
        (check_robots_txt true robots_read_failure []
          "https://www.monster.com" "/jobs/search").2.1
        "https://www.monster.com" "/jobs/search").2.2 = 0) :=
  ⟨rfl, rfl, by decide⟩

/-- C2, amended: when the robots.txt retrieval for an uncached source
fails, `check_robots_txt` returns `true` (fail-open) and leaves the
cache unchanged, so a second call for the same source performs a new
robots.txt retrieval rather than hitting a cached decision. -/
theorem robots_fail_open_amended
    (read_robots : String → Option RobotsFile)
    (robots_cache : List (String × RobotsFile)) (base_url endpoint : String)
    (hmiss : robots_cache.lookup base_url = none)
    (hfail : read_robots base_url = none) :
    check_robots_txt true read_robots robots_cache base_url endpoint =
      (true, robots_cache, 1) ∧
    (check_robots_txt true read_robots
        (check_robots_txt true read_robots robots_cache base_url
          endpoint).2.1 base_url endpoint).2.2 = 1 := by
  have h1 : check_robots_txt true read_robots robots_cache base_url endpoint =
      (true, robots_cache, 1) := by
    unfold check_robots_txt
    rw [hmiss, hfail]
    rfl
  refine ⟨h1, ?_⟩
  rw [h1]
  unfold check_robots_txt
  rw [hmiss, hfail]
  rfl

theorem robots_fail_open_amended_witness :
    ([] : List (String × RobotsFile)).lookup "https://www.monster.com" =
      none ∧
    robots_read_failure "https://www.monster.com" = none ∧
    (check_robots_txt true robots_read_failure []
        "https://www.monster.com" "/jobs/search" = (true, [], 1) ∧
      (check_robots_txt true robots_read_failure
          (check_robots_txt true robots_read_failure []
            "https://www.monster.com" "/jobs/search").2.1
          "https://www.monster.com" "/jobs/search").2.2 = 1) :=
  ⟨rfl, rfl,
   robots_fail_open_amended robots_read_failure []
     "https://www.monster.com" "/jobs/search" rfl rfl⟩

/-! ### C5: API path selection -/

/-- C5, counterexample: a source with policy `API_AVAILABLE` and no API
credential configured does NOT fall back to the HTML-scrape path: the
orchestrator calls the API path unconditionally, so the run records the
API oracle's listing rather than the (empty) web result. -/
theorem api_available_no_fallback_cex :
    github_jobs_cfg.legal_status = "API_AVAILABLE" ∧
    truthy (no_env (api_key_env_var github_jobs_cfg.name)) = false ∧
    process_source no_env api_stub web_stub github_jobs_cfg =
      SourceResult.jobs [sample_api_listing] ∧
    process_source no_env api_stub web_stub github_jobs_cfg ≠
      outcome_result (web_stub github_jobs_cfg.name) :=
  ⟨rfl, rfl, rfl, by decide⟩

/-- C5, amended: a source with policy `API_PREFERRED` takes the API path
exactly when a (truthy) `<SOURCE>_API_KEY` environment value is present
and otherwise falls back to the HTML-scrape path; a source with policy
`API_AVAILABLE` takes the API path unconditionally, with no credential
check and no HTML fallback. -/
theorem api_path_selection_amended (getenv : String → Option String)
    (api web : String → Outcome) (src : SourceConfig) :
    (src.legal_status = "API_PREFERRED" →
      process_source getenv api web src =
        outcome_result
          (if truthy (getenv (api_key_env_var src.name)) then api src.name
           else web src.name)) ∧
    (src.legal_status = "API_AVAILABLE" →
      process_source getenv api web src = outcome_result (api src.name)) := by
  constructor
  · intro h
    unfold process_source
    rw [h]
    rfl
  · intro h
    unfold process_source
    rw [h]
    rfl

theorem api_path_selection_amended_witness :
    process_source no_env api_stub web_stub indeed_cfg =
      outcome_result
        (if truthy (no_env (api_key_env_var indeed_cfg.name)) then
          api_stub indeed_cfg.name
         else web_stub indeed_cfg.name) ∧
    process_source no_env api_stub web_stub github_jobs_cfg =
      outcome_result (api_stub github_jobs_cfg.name) :=
  ⟨(api_path_selection_amended no_env api_stub web_stub indeed_cfg).1 rfl,
   (api_path_selection_amended no_env api_stub web_stub github_jobs_cfg).2
     rfl⟩

theorem source_error_contained_witness :
    process_source no_env api_stub web_failing monster_cfg =
      SourceResult.errored ∧
    scrape_jobs_comprehensive no_env api_stub web_failing
        ([github_jobs_cfg] ++ monster_cfg :: [indeed_cfg]) =
      scrape_jobs_comprehensive no_env api_stub web_failing
        ([github_jobs_cfg] ++ [indeed_cfg]) :=
  ⟨rfl,
   source_error_contained no_env api_stub web_failing
     [github_jobs_cfg] monster_cfg [indeed_cfg] rfl⟩

/-! ### C6: rate spacing -/

/-- C6, counterexample: `respectful_delay` uses the source's
`rate_limit` alone when one is configured — it never takes the maximum
with the global `delay_min`.  With global `delay_min = 5` and the
`indeed` source (`rate_limit = 2.0`), a zero-jitter draw waits exactly
2 seconds, below `max(source.minDelay, globalMinDelay) = 5`; moreover
the jitter interval is `[0, 1.0]`, not `[0, 1.0 * minDelay] = [0, 2.0]`:
even the maximal draw waits 3 seconds, not 4. -/
theorem rate_delay_ignores_global_cex :
    indeed_cfg.rate_limit = some 2 ∧
    respectful_delay 5 [indeed_cfg] "indeed" 0 = 2 ∧
    ¬(max (2 : ℚ) 5 ≤ respectful_delay 5 [indeed_cfg] "indeed" 0) ∧
    respectful_delay 5 [indeed_cfg] "indeed" 1 = 3 := by
  have he : effective_min_delay 5 [indeed_cfg] "indeed" = 2 := by decide
  have h0 : respectful_delay 5 [indeed_cfg] "indeed" 0 = 2 := by
    unfold respectful_delay
    rw [he]
    ring
  have h1 : respectful_delay 5 [indeed_cfg] "indeed" 1 = 3 := by
    unfold respectful_delay
    rw [he]
    ring
  refine ⟨rfl, h0, ?_, h1⟩
  rw [h0]
  intro hmax
  have := le_trans (le_max_right (2 : ℚ) 5) hmax
  norm_num at this

/-- C6, amended: for a uniform draw `u ∈ [0, 1]`, the wait produced by
`respectful_delay` equals `m + u` where `m` is the source's configured
`rate_limit` (or the global `delay_min` when none is configured); hence
the wait always lies in `[m, m + 1]`, and in particular a source with
`rate_limit = 2.0` is never waited on for less than 2 seconds. -/
theorem rate_delay_spacing_amended (delay_min : ℚ)
    (sources : List SourceConfig) (source : String) (u : ℚ)
    (h0 : 0 ≤ u) (h1 : u ≤ 1) :
    respectful_delay delay_min sources source u =
      effective_min_delay delay_min sources source + u ∧
    effective_min_delay delay_min sources source ≤
      respectful_delay delay_min sources source u ∧
    respectful_delay delay_min sources source u ≤
      effective_min_delay delay_min sources source + 1 ∧
    (effective_min_delay delay_min sources source = 2 →
      2 ≤ respectful_delay delay_min sources source u) := by
  have heq : respectful_delay delay_min sources source u =
      effective_min_delay delay_min sources source + u := by
    unfold respectful_delay
    ring
  refine ⟨heq, by rw [heq]; linarith, by rw [heq]; linarith, ?_⟩
  intro h2
  rw [heq, h2]
  linarith

theorem rate_delay_spacing_amended_witness :
    (0 : ℚ) ≤ 1/2 ∧ (1/2 : ℚ) ≤ 1 ∧
    (respectful_delay 1 [indeed_cfg] "indeed" (1/2) =
        effective_min_delay 1 [indeed_cfg] "indeed" + 1/2 ∧
      effective_min_delay 1 [indeed_cfg] "indeed" ≤
        respectful_delay 1 [indeed_cfg] "indeed" (1/2) ∧
      respectful_delay 1 [indeed_cfg] "indeed" (1/2) ≤
        effective_min_delay 1 [indeed_cfg] "indeed" + 1 ∧
      (effective_min_delay 1 [indeed_cfg] "indeed" = 2 →
        2 ≤ respectful_delay 1 [indeed_cfg] "indeed" (1/2))) :=
  ⟨by norm_num, by norm_num,
   rate_delay_spacing_amended 1 [indeed_cfg] "indeed" (1/2)
     (by norm_num) (by norm_num)⟩

/-! ### C7: proxy rotation -/

/-- C7, counterexample: with rotation disabled, `get_next_proxy` does
NOT return the first proxy of the pool — it returns `None` (direct
connection) and leaves the state untouched. -/
theorem proxy_rotation_disabled_cex :
    rotation_disabled_state.use_proxies = false ∧
    rotation_disabled_state.proxies.getD 0 none =
      some "http://proxy1.example.com:8080" ∧
    get_next_proxy rotation_disabled_state = (none, rotation_disabled_state) ∧
    (get_next_proxy rotation_disabled_state).1 ≠
      some "http://proxy1.example.com:8080" := by
  refine ⟨rfl, rfl, rfl, by decide⟩

/-- C7, amended: `get_next_proxy` advances the proxy index exactly once
every 5 requests — precisely on the calls whose shared request counter
is divisible by 5 — independent of source; when rotation is disabled (or
the pool is empty) it returns no proxy at all (direct connection) and
leaves the state unchanged. -/
theorem proxy_rotation_amended (st : RotatorState) :
    (st.use_proxies = false → get_next_proxy st = (none, st)) ∧
    (st.proxies = [] → get_next_proxy st = (none, st)) ∧
    (st.use_proxies = true → st.proxies ≠ [] →
      (get_next_proxy st).2.request_count = st.request_count + 1 ∧
      (st.request_count % 5 = 0 →
        (get_next_proxy st).2.current_proxy_index =
          (st.current_proxy_index + 1) % st.proxies.length) ∧
      (¬(st.request_count % 5 = 0) →
        (get_next_proxy st).2.current_proxy_index =
          st.current_proxy_index) ∧
      (get_next_proxy st).1 =
        st.proxies.getD (get_next_proxy st).2.current_proxy_index none) := by
  refine ⟨?_, ?_, ?_⟩
  · intro h
    unfold get_next_proxy
    rw [h]
    rfl
  · intro h
    unfold get_next_proxy
    rw [h]
    cases hu : st.use_proxies <;> rfl
  · intro hu hne
    have hie : st.proxies.isEmpty = false := by
      cases hp : st.proxies with
      | nil => exact absurd hp hne
      | cons a l => rfl
    by_cases hm : st.request_count % 5 = 0
    · refine ⟨?_, fun _ => ?_, fun hc => absurd hm hc, ?_⟩ <;>
        simp [get_next_proxy, hu, hie, hm]
    · refine ⟨?_, fun hc => absurd hc hm, fun _ => ?_, ?_⟩ <;>
        simp [get_next_proxy, hu, hie, hm]

theorem proxy_rotation_amended_witness :
    (get_next_proxy rotation_enabled_state).2.request_count =
      rotation_enabled_state.request_count + 1 ∧
    (get_next_proxy rotation_enabled_state).2.current_proxy_index =
      (rotation_enabled_state.current_proxy_index + 1) %
        rotation_enabled_state.proxies.length :=
  have h := (proxy_rotation_amended rotation_enabled_state).2.2 rfl
    (by decide)
  ⟨h.1, h.2.1 (by decide)⟩

/-! ### C8: requirement-tag extraction -/

/-- C8, counterexample: on the description `"javascript then python"`
the word `javascript` first appears at index 0 and `python` only at
index 16, yet `extract_requirements` lists `"Python"` first — the output
follows the fixed vocabulary's order, not the order of first appearance
in the text.  (It also shows `"Java"` reported because `java` occurs
inside `javascript`.) -/
theorem requirements_order_cex :
    extract_requirements "javascript then python" =
      ["Python", "Javascript", "Java"] ∧
    py_find (py_lower "javascript then python") "javascript" = some 0 ∧
    py_find (py_lower "javascript then python") "python" = some 16 ∧
    (extract_requirements "javascript then python").head? = some "Python" ∧
    ¬((16 : Nat) ≤ 0) := by
  refine ⟨by decide, by decide, by decide, by decide, by decide⟩

/-- Shared shape of both skill extractors: filter a fixed vocabulary,
title-case, truncate. -/
theorem vocab_take_props (vocab : List String) (p : String → Bool)
    (n : Nat) :
    List.Sublist (((vocab.filter p).map py_title).take n)
      (vocab.map py_title) ∧
    ((((vocab.filter p).map py_title).take n)).length ≤ n ∧
    (∀ t ∈ ((vocab.filter p).map py_title).take n,
      ∃ sk, sk ∈ vocab ∧ p sk = true ∧ py_title sk = t) ∧
    (((((vocab.filter p).map py_title).take n)).length < n →
      ∀ sk, sk ∈ vocab → p sk = true →
        py_title sk ∈ ((vocab.filter p).map py_title).take n) := by
  refine ⟨?_, ?_, ?_, ?_⟩
  · exact (List.take_sublist n _).trans
      (List.Sublist.map py_title (List.filter_sublist vocab))
  · exact List.length_take_le n _
  · intro t ht
    have ht2 := List.take_subset n _ ht
    obtain ⟨sk, hsk, rfl⟩ := List.mem_map.mp ht2
    have hf := List.mem_filter.mp hsk
    exact ⟨sk, hf.1, hf.2, rfl⟩
  · intro hlen sk hsk hp
    have hlt : ((vocab.filter p).map py_title).length < n := by
      rw [List.length_take] at hlen
      omega
    rw [List.take_of_length_le (le_of_lt hlt)]
    exact List.mem_map.mpr ⟨sk, List.mem_filter.mpr ⟨hsk, hp⟩, rfl⟩

/-- C8, amended: requirement-tag extraction returns exactly the skills
of the fixed vocabulary that occur (case-insensitively, as substrings)
in the text, normalized by Python `str.title()`, capped at 10
(`extract_requirements`) resp. 15 (`extract_skills_from_text`) — but
listed in the order of the fixed vocabulary, not in order of first
appearance in the text. -/
theorem requirements_extraction_amended (d : String) :
    List.Sublist (extract_requirements d) (tech_skills.map py_title) ∧
    (extract_requirements d).length ≤ 10 ∧
    (∀ t ∈ extract_requirements d,
      ∃ sk, sk ∈ tech_skills ∧ py_in sk (py_lower d) = true ∧
        py_title sk = t) ∧
    ((extract_requirements d).length < 10 →
      ∀ sk, sk ∈ tech_skills → py_in sk (py_lower d) = true →
        py_title sk ∈ extract_requirements d) ∧
    List.Sublist (extract_skills_from_text d)
      (skills_database.map py_title) ∧
    (extract_skills_from_text d).length ≤ 15 ∧
    (∀ t ∈ extract_skills_from_text d,
      ∃ sk, sk ∈ skills_database ∧ py_in sk (py_lower d) = true ∧
        py_title sk = t) ∧
    ((extract_skills_from_text d).length < 15 →
      ∀ sk, sk ∈ skills_database → py_in sk (py_lower d) = true →
        py_title sk ∈ extract_skills_from_text d) := by
  have h1 := vocab_take_props tech_skills
    (fun skill => py_in skill (py_lower d)) 10
  have h2 := vocab_take_props skills_database
    (fun skill => py_in skill (py_lower d)) 15
  exact ⟨h1.1, h1.2.1, h1.2.2.1, h1.2.2.2, h2.1, h2.2.1, h2.2.2.1, h2.2.2.2⟩

theorem requirements_extraction_amended_witness :
    py_title "python" ∈ extract_requirements "python required" := by
  have h := requirements_extraction_amended "python required"
  exact h.2.2.2.1 (by decide) "python" (by decide) (by decide)

end ResumeParser
